import Mathlib

/-
Verification of the go-ops-agent core engine (package core) against its
specification.  The Go sources under src/core are shallowly embedded:
pure logic becomes Lean functions, stateful methods become explicit
state-passing functions, goroutine spawning and plugin-method calls are
recorded as event traces, durations are naturals (milliseconds), Go
float64 payload fields are rationals, and Go maps are association lists.
-/

namespace OpsAgent

/-- ErrorType, from src/core/errors.go: the six error kinds. -/
inductive ErrorType where
  | configuration
  | plugin
  | network
  | validation
  | timeout
  | internal
deriving DecidableEq, Repr

/-- FrameworkError, from src/core/errors.go.  The Go struct also carries an
optional wrapped cause, a context map and a file/line capture point; none of
the claims inspect those, and the capture point is runtime-dependent, so the
embedding keeps the kind, component, operation and message. -/
structure FrameworkError where
  type : ErrorType
  component : String
  operation : String
  message : String
deriving DecidableEq, Repr

/-- NewFrameworkError, from src/core/errors.go. -/
def NewFrameworkError (t : ErrorType) (component operation message : String) :
    FrameworkError :=
  ⟨t, component, operation, message⟩

/-- NewConfigurationError, from src/core/errors.go. -/
def NewConfigurationError (component operation message : String) : FrameworkError :=
  NewFrameworkError ErrorType.configuration component operation message

/-- NewPluginError, from src/core/errors.go. -/
def NewPluginError (component operation message : String) : FrameworkError :=
  NewFrameworkError ErrorType.plugin component operation message

/-- NewValidationError, from src/core/errors.go. -/
def NewValidationError (component operation message : String) : FrameworkError :=
  NewFrameworkError ErrorType.validation component operation message

/-- NewInternalError, from src/core/errors.go. -/
def NewInternalError (component operation message : String) : FrameworkError :=
  NewFrameworkError ErrorType.internal component operation message

/-- PluginType, from src/core/plugin.go. -/
inductive PluginType where
  | collector
  | analyzer
  | responder
  | agent
deriving DecidableEq, Repr

/-- PluginStatus, from src/core/plugin.go. -/
inductive PluginStatus where
  | stopped
  | starting
  | running
  | stopping
  | error
deriving DecidableEq, Repr

/-- DataPoint, from src/core/types.go.  The Go float64 value is embedded as a
rational; the timestamp is milliseconds; the labels map is an association
list; the open interface-valued metadata map is not modelled. -/
structure DataPoint where
  timestampMillis : Nat
  source : String
  metric : String
  value : Rat
  labels : List (String × String)
deriving DecidableEq, Repr

/-- AnalysisType, from src/core/types.go. -/
inductive AnalysisType where
  | anomaly
  | trend
  | correlation
  | alert
deriving DecidableEq, Repr

/-- Analysis, from src/core/types.go.  Confidence (a Go float64) is a
rational; the interface-valued details map is not modelled. -/
structure Analysis where
  type : AnalysisType
  confidence : Rat
  severity : String
  summary : String
  dataPoints : List DataPoint
  timestampMillis : Nat
  source : String
deriving DecidableEq, Repr

/-- AgentResponse, from src/core/plugin.go.  Confidence is a rational; the
open actions list and metadata map are not modelled. -/
structure AgentResponse where
  query : String
  response : String
  confidence : Rat
deriving DecidableEq, Repr

/-- DataAnalyzer role methods, from src/core/plugin.go.  Analyze returns
(*Analysis, error): an error (as its message string), or nil, or an
Analysis. -/
structure AnalyzerImpl where
  canAnalyze : List DataPoint → Bool
  analyze : List DataPoint → Except String (Option Analysis)

/-- DataResponder role methods, from src/core/plugin.go.  Respond returns an
error or nil; `some msg` is the error case. -/
structure ResponderImpl where
  canHandle : Analysis → Bool
  respond : Analysis → Option String

/-- AgentPlugin role methods, from src/core/plugin.go.  ProcessQuery returns
(*AgentResponse, error); SetContext is a side effect on the agent and is
recorded in the pipeline event trace. -/
structure AgentImpl where
  processQuery : String → Except String AgentResponse

/-- DataCollector role methods, from src/core/plugin.go. -/
structure CollectorImpl where
  collectionIntervalMillis : Nat

/-- Plugin, from src/core/plugin.go.  A Go plugin is an interface value; the
optional role-method records model which role interfaces the dynamic type
implements (the `plugin.(DataAnalyzer)` style type assertions).  `startOk`
records whether the plugin's Start(ctx) returns nil. -/
structure Plugin where
  name : String
  ptype : PluginType
  status : PluginStatus
  startOk : Bool
  analyzerImpl : Option AnalyzerImpl
  responderImpl : Option ResponderImpl
  agentImpl : Option AgentImpl
  collectorImpl : Option CollectorImpl

/-- Helper for the `_, exists := r.plugins[name]` map lookups in
src/core/plugin_registry.go. -/
def containsName (ps : List Plugin) (n : String) : Bool :=
  ps.any (fun q => decide (q.name = n))

/-- DefaultPluginRegistry, from src/core/plugin_registry.go.  The Go
name-keyed map is embedded as a list of plugins with unique names; map
iteration order is unspecified in Go, the list order is one determinization
of it. -/
structure DefaultPluginRegistry where
  plugins : List Plugin

/-- RegisterPlugin, from src/core/plugin_registry.go lines 83-93: if the name
is already present, return a plugin-kind error and leave the map untouched;
otherwise insert. -/
def RegisterPlugin (r : DefaultPluginRegistry) (p : Plugin) :
    DefaultPluginRegistry × Option FrameworkError :=
  if containsName r.plugins p.name then
    (r, some (NewPluginError "registry" "register"
        ("plugin " ++ p.name ++ " already registered")))
  else
    (⟨r.plugins ++ [p]⟩, none)

/-- UnregisterPlugin, from src/core/plugin_registry.go lines 96-106: if the
name is absent, return a plugin-kind error and leave the map untouched;
otherwise delete. -/
def UnregisterPlugin (r : DefaultPluginRegistry) (n : String) :
    DefaultPluginRegistry × Option FrameworkError :=
  if containsName r.plugins n then
    (⟨r.plugins.filter (fun q => !(decide (q.name = n)))⟩, none)
  else
    (r, some (NewPluginError "registry" "unregister"
        ("plugin " ++ n ++ " not found")))

/-- GetPlugin, from src/core/plugin_registry.go lines 109-119. -/
def GetPlugin (r : DefaultPluginRegistry) (n : String) :
    Except FrameworkError Plugin :=
  match r.plugins.find? (fun q => decide (q.name = n)) with
  | some p => Except.ok p
  | none => Except.error (NewPluginError "registry" "get"
      ("plugin " ++ n ++ " not found"))

/-- ListPlugins, from src/core/plugin_registry.go lines 122-131. -/
def ListPlugins (r : DefaultPluginRegistry) : List Plugin :=
  r.plugins

/-- ListPluginsByType, from src/core/plugin_registry.go lines 134-145: the
filter is on the plugin's Type() alone, the lifecycle Status() is not
consulted. -/
def ListPluginsByType (r : DefaultPluginRegistry) (t : PluginType) : List Plugin :=
  r.plugins.filter (fun q => decide (q.ptype = t))

/-- GetPluginCount, from src/core/plugin_registry.go lines 148-152. -/
def GetPluginCount (r : DefaultPluginRegistry) : Nat :=
  r.plugins.length

/-- GetPluginCountByType, from src/core/plugin_registry.go lines 155-166. -/
def GetPluginCountByType (r : DefaultPluginRegistry) (t : PluginType) : Nat :=
  (ListPluginsByType r t).length

/-- FrameworkConfig, from src/core/plugin.go lines 176-208.  Durations are
milliseconds; only the fields the engine reads are embedded. -/
structure FrameworkConfig where
  serverHost : String
  serverPort : Nat
  defaultAgent : String
  healthCheckTimeoutMillis : Nat
  dataChannelSize : Nat
  workerPoolSize : Nat
  shutdownTimeoutMillis : Nat
deriving DecidableEq, Repr

/-- Framework, from src/core/framework.go lines 13-29: the registry, the
configuration, and the running/shutdown flags.  The channel, wait group,
contexts and start time are modelled separately where a claim needs them. -/
structure Framework where
  registry : DefaultPluginRegistry
  config : FrameworkConfig
  running : Bool
  shutdown : Bool

/-- Start, from src/core/framework.go lines 155-209, restricted to the guard
and flag updates: refuse with an internal-kind error when already running,
otherwise set running to true.  The shutdown flag is not touched by Start.
The startup actions it then performs are modelled by `StartTrace`. -/
def Start (f : Framework) : Framework × Option FrameworkError :=
  if f.running then
    (f, some (NewInternalError "framework" "start" "framework is already running"))
  else
    ({ f with running := true }, none)

/-- Stop, from src/core/framework.go lines 212-267, restricted to the guard
and flag updates: refuse with an internal-kind error when not running,
otherwise clear running and set shutdown. -/
def Stop (f : Framework) : Framework × Option FrameworkError :=
  if !f.running then
    (f, some (NewInternalError "framework" "stop" "framework is not running"))
  else
    ({ f with running := false, shutdown := true }, none)

/-- Worker-wait step of Stop, from src/core/framework.go lines 229-242: the
select between the wait-group completion and `time.After(30 * time.Second)`.
Given the instant (milliseconds after Stop began) at which all workers would
exit — none when they never exit — this returns how long Stop actually
blocks.  The 30000 is the literal in the source; the function takes no
configuration because the source consults none. -/
def stopWorkerWaitMillis (workersExitMillis : Option Nat) : Nat :=
  match workersExitMillis with
  | some t => if t ≤ 30000 then t else 30000
  | none => 30000

/-- StartEvent: one startup action performed by Start, in program order. -/
inductive StartEvent where
  | pluginStart (name : String) (ok : Bool)
  | spawnCollectorWorker (name : String)
  | spawnDataProcessor
  | spawnHealthEndpoints
deriving DecidableEq, Repr

/-- Plugin-start loop of Start, src/core/framework.go lines 169-175: every
registered plugin's Start is invoked; a failure is logged and skipped. -/
def startPluginEvents (ps : List Plugin) : List StartEvent :=
  ps.map (fun p => StartEvent.pluginStart p.name p.startOk)

/-- Collector-worker loop of Start, src/core/framework.go lines 178-184: one
worker per collector-typed plugin that implements DataCollector. -/
def spawnCollectorEvents (ps : List Plugin) : List StartEvent :=
  ps.filterMap (fun p =>
    if p.collectorImpl.isSome then some (StartEvent.spawnCollectorWorker p.name)
    else none)

/-- StartTrace: the sequence of startup actions Start performs once past its
running guard, in the order of src/core/framework.go lines 168-192: start
every registered plugin, then spawn one worker per collector, then the data
processor, then the health endpoints. -/
def StartTrace (f : Framework) : List StartEvent :=
  startPluginEvents (ListPlugins f.registry)
    ++ (spawnCollectorEvents (ListPluginsByType f.registry PluginType.collector)
        ++ [StartEvent.spawnDataProcessor, StartEvent.spawnHealthEndpoints])

/-- QueryError: a query either fails inside the framework with a
FrameworkError, or propagates the agent's own error (an arbitrary Go error,
embedded as its message string). -/
inductive QueryError where
  | frameworkErr (e : FrameworkError)
  | agentErr (s : String)
deriving DecidableEq, Repr

/-- QueryAgent, from src/core/framework.go lines 270-285: look the plugin up,
assert the AgentPlugin interface, delegate to ProcessQuery and return its
result verbatim. -/
def QueryAgent (f : Framework) (agentName query : String) :
    Except QueryError AgentResponse :=
  match GetPlugin f.registry agentName with
  | Except.error _ =>
      Except.error (QueryError.frameworkErr (NewPluginError "framework" "query"
        ("agent " ++ agentName ++ " not found")))
  | Except.ok p =>
      match p.agentImpl with
      | none =>
          Except.error (QueryError.frameworkErr (NewPluginError "framework" "query"
            ("plugin " ++ agentName ++ " is not an agent")))
      | some a =>
          match a.processQuery query with
          | Except.ok resp => Except.ok resp
          | Except.error s => Except.error (QueryError.agentErr s)

/-- QueryDefaultAgent, from src/core/framework.go lines 288-294. -/
def QueryDefaultAgent (f : Framework) (query : String) :
    Except QueryError AgentResponse :=
  if f.config.defaultAgent = "" then
    Except.error (QueryError.frameworkErr (NewConfigurationError "framework" "query"
      "no default agent configured"))
  else
    QueryAgent f f.config.defaultAgent query

/-- HttpResponse: status code and body written by a handler. -/
structure HttpResponse where
  statusCode : Nat
  body : String
deriving DecidableEq, Repr

/-- Handler for GET /health, from src/core/framework.go lines 486-498. -/
def healthHandler (f : Framework) : HttpResponse :=
  if f.running && !f.shutdown then ⟨200, "OK"⟩
  else ⟨503, "Service Unavailable"⟩

/-- Handler for GET /ready, from src/core/framework.go lines 501-514. -/
def readyHandler (f : Framework) : HttpResponse :=
  if (f.running && !f.shutdown) && decide (0 < GetPluginCount f.registry) then
    ⟨200, "Ready"⟩
  else ⟨503, "Not Ready"⟩

/-- StatusSnapshot: the fields of the GetStatus map, src/core/framework.go
lines 302-331 (the per-plugin status submap and uptime are omitted). -/
structure StatusSnapshot where
  running : Bool
  totalPlugins : Nat
  collectors : Nat
  analyzers : Nat
  responders : Nat
  agents : Nat
deriving DecidableEq, Repr

/-- GetStatus, from src/core/framework.go lines 302-331. -/
def GetStatus (f : Framework) : StatusSnapshot :=
  ⟨f.running,
   GetPluginCount f.registry,
   GetPluginCountByType f.registry PluginType.collector,
   GetPluginCountByType f.registry PluginType.analyzer,
   GetPluginCountByType f.registry PluginType.responder,
   GetPluginCountByType f.registry PluginType.agent⟩

/-- PipelineEvent: one plugin-method invocation made by processData while
handling a batch, in program order. -/
inductive PipelineEvent where
  | setContextCall (agent : String)
  | canAnalyzeCall (analyzer : String) (result : Bool)
  | analyzeCall (analyzer : String) (errored : Bool)
  | canHandleCall (responder : String) (result : Bool)
  | respondCall (responder : String) (errored : Bool)
deriving DecidableEq, Repr

/-- Agent pass of processData, src/core/framework.go lines 416-421: for each
agent-typed plugin implementing AgentPlugin, SetContext(data) is called. -/
def setContextPass (agents : List Plugin) : List PipelineEvent :=
  match agents with
  | [] => []
  | p :: rest =>
    match p.agentImpl with
    | some _ => PipelineEvent.setContextCall p.name :: setContextPass rest
    | none => setContextPass rest

/-- Responder pass of processData, src/core/framework.go lines 446-460: for
each responder-typed plugin implementing DataResponder, CanHandle is asked;
when it answers true, Respond is invoked; a Respond error is logged and the
loop continues with the remaining responders. -/
def respondersPass (responders : List Plugin) (analysis : Analysis) :
    List PipelineEvent :=
  match responders with
  | [] => []
  | p :: rest =>
    match p.responderImpl with
    | none => respondersPass rest analysis
    | some r =>
      if r.canHandle analysis then
        PipelineEvent.canHandleCall p.name true
          :: PipelineEvent.respondCall p.name (r.respond analysis).isSome
          :: respondersPass rest analysis
      else
        PipelineEvent.canHandleCall p.name false :: respondersPass rest analysis

/-- Analyzer pass of processData, src/core/framework.go lines 424-461: for
each analyzer-typed plugin implementing DataAnalyzer, CanAnalyze is asked;
when true, Analyze runs; an error is logged and skipped, a nil analysis is
skipped, and a non-nil analysis is dispatched to the responders listed from
the registry at that moment. -/
def analyzersPass (reg : DefaultPluginRegistry) (analyzers : List Plugin)
    (data : List DataPoint) : List PipelineEvent :=
  match analyzers with
  | [] => []
  | p :: rest =>
    match p.analyzerImpl with
    | none => analyzersPass reg rest data
    | some az =>
      if az.canAnalyze data then
        match az.analyze data with
        | Except.error _ =>
            PipelineEvent.canAnalyzeCall p.name true
              :: PipelineEvent.analyzeCall p.name true
              :: analyzersPass reg rest data
        | Except.ok none =>
            PipelineEvent.canAnalyzeCall p.name true
              :: PipelineEvent.analyzeCall p.name false
              :: analyzersPass reg rest data
        | Except.ok (some analysis) =>
            PipelineEvent.canAnalyzeCall p.name true
              :: PipelineEvent.analyzeCall p.name false
              :: (respondersPass (ListPluginsByType reg PluginType.responder) analysis
                  ++ analyzersPass reg rest data)
      else
        PipelineEvent.canAnalyzeCall p.name false :: analyzersPass reg rest data

/-- processData, from src/core/framework.go lines 414-462: update every
agent's context snapshot, then run the analyzer pass (which dispatches each
non-nil analysis to the responders).  The plugin lists come from
ListPluginsByType, which filters on Type() only. -/
def processData (reg : DefaultPluginRegistry) (data : List DataPoint) :
    List PipelineEvent :=
  setContextPass (ListPluginsByType reg PluginType.agent)
    ++ analyzersPass reg (ListPluginsByType reg PluginType.analyzer) data

/-- Non-blocking receive performed by the data_channel health check,
src/core/health.go lines 166-177: the select receives a batch from the data
channel when one is queued (discarding it) and returns nil either way.  The
channel is modelled as the queue of batches sent but not yet received. -/
def dataChannelCheckRecv (queue : List (List DataPoint)) :
    List (List DataPoint) × Option String :=
  match queue with
  | _ :: rest => (rest, none)
  | [] => ([], none)

/-- CheckBehavior: how one registered HealthCheckFunc behaves under the
deadline of src/core/health.go lines 79-113 — it either returns (nil or an
error, embedded as its message string) before the timeout, or it does not
return in time. -/
inductive CheckBehavior where
  | returns (err : Option String)
  | timesOut
deriving DecidableEq, Repr

/-- CheckResult, from src/core/validation.go lines 187-191. -/
structure CheckResult where
  status : String
  message : String
  error : String
deriving DecidableEq, Repr

/-- HealthStatus, from src/core/validation.go lines 179-184 (timestamp
omitted; the checks map is an association list). -/
structure HealthStatus where
  status : String
  message : String
  checks : List (String × CheckResult)
deriving DecidableEq, Repr

/-- runHealthCheck, from src/core/health.go lines 79-113: a check that
returns an error yields unhealthy with that error; a nil return yields
healthy; hitting the deadline yields unhealthy with error "timeout". -/
def runHealthCheck : CheckBehavior → CheckResult
  | CheckBehavior.returns (some e) => ⟨"unhealthy", "Health check failed", e⟩
  | CheckBehavior.returns none => ⟨"healthy", "Health check passed", ""⟩
  | CheckBehavior.timesOut => ⟨"unhealthy", "Health check timed out", "timeout"⟩

/-- Per-result update of the overall status, the loop body of CheckHealth,
src/core/health.go lines 60-67. -/
def updateOverall (acc : String × String) (r : CheckResult) : String × String :=
  if r.status = "unhealthy" then
    ("unhealthy", "One or more health checks failed")
  else if r.status = "degraded" ∧ acc.1 ≠ "unhealthy" then
    ("degraded", "One or more health checks are degraded")
  else acc

/-- CheckHealth, from src/core/health.go lines 43-76: run every registered
check, record each result, and fold the overall status starting from
healthy. -/
def CheckHealth (checks : List (String × CheckBehavior)) : HealthStatus :=
  let results := checks.map (fun nc => (nc.1, runHealthCheck nc.2))
  let overall := results.foldl (fun acc nr => updateOverall acc nr.2)
    ("healthy", "All health checks passed")
  ⟨overall.1, overall.2, results⟩

/-- Concrete data point used by the concrete scenarios below. -/
def dp0 : DataPoint := ⟨0, "node", "cpu", 50, []⟩

/-- Concrete analysis produced by the concrete analyzer below. -/
def analysis0 : Analysis :=
  ⟨AnalysisType.anomaly, 1, "high", "cpu spike", [dp0], 0, "az"⟩

/-- Concrete analyzer plugin whose Start was never completed (status
stopped, Start fails); it accepts every batch and reports `analysis0`. -/
def az0 : Plugin :=
  ⟨"az", PluginType.analyzer, PluginStatus.stopped, false,
   some ⟨fun _ => true, fun _ => Except.ok (some analysis0)⟩, none, none, none⟩

/-- Concrete responder that handles everything and whose Respond errors. -/
def rp0 : Plugin :=
  ⟨"rp", PluginType.responder, PluginStatus.running, true,
   none, some ⟨fun _ => true, fun _ => some "responder failed"⟩, none, none⟩

/-- Concrete responder that declines every analysis. -/
def rp1 : Plugin :=
  ⟨"rq", PluginType.responder, PluginStatus.running, true,
   none, some ⟨fun _ => false, fun _ => none⟩, none, none⟩

/-- Concrete agent answering every query with response "ok". -/
def ag0 : Plugin :=
  ⟨"ag", PluginType.agent, PluginStatus.running, true,
   none, none, some ⟨fun q => Except.ok ⟨q, "ok", 9/10⟩⟩, none⟩

/-- Concrete collector with a one-second interval. -/
def c0 : Plugin :=
  ⟨"c", PluginType.collector, PluginStatus.running, true,
   none, none, none, some ⟨1000⟩⟩

/-- Concrete plugin typed responder whose dynamic type implements no role
interface (all type assertions on it fail). -/
def npl : Plugin :=
  ⟨"np", PluginType.responder, PluginStatus.running, true, none, none, none, none⟩

/-- Concrete configuration: no default agent, shutdown timeout 1s. -/
def cfg0 : FrameworkConfig := ⟨"0.0.0.0", 9090, "", 5000, 100, 4, 1000⟩

/-- Registry already holding a plugin named "rp". -/
def regDup : DefaultPluginRegistry := ⟨[rp0]⟩

/-- Registry holding only the stopped analyzer `az0`. -/
def regStopped : DefaultPluginRegistry := ⟨[az0]⟩

/-- Registry with a responder, a collector, an agent and a no-interface
plugin. -/
def regMain : DefaultPluginRegistry := ⟨[rp0, c0, ag0, npl]⟩

/-- Running framework over `regMain`. -/
def fwRun : Framework := ⟨regMain, cfg0, true, false⟩

/-- Framework that was never started (not running, empty registry). -/
def fwIdle : Framework := ⟨⟨[]⟩, cfg0, false, false⟩

/-- C2.  The claim says duplicate registration fails with a validation-kind
error; at the concrete registry `regDup`, registering a second plugin named
"rp" fails with a plugin-kind error, and plugin ≠ validation. -/
theorem register_duplicate_kind_counterexample :
    (RegisterPlugin regDup rp0).2.map FrameworkError.type = some ErrorType.plugin
      ∧ ErrorType.plugin ≠ ErrorType.validation := by
  constructor
  · rfl
  · decide

/-- C2 (amended).  Registering a plugin whose name is already present fails
with a plugin-kind (not validation-kind) error, and unregistering an absent
name fails with a plugin-kind error; in both cases the registry value is
returned unchanged. -/
theorem register_unregister_failure_kinds (r : DefaultPluginRegistry)
    (p : Plugin) (n : String)
    (hdup : containsName r.plugins p.name = true)
    (habs : containsName r.plugins n = false) :
    ((RegisterPlugin r p).1 = r ∧
      (RegisterPlugin r p).2.map FrameworkError.type = some ErrorType.plugin) ∧
    ((UnregisterPlugin r n).1 = r ∧
      (UnregisterPlugin r n).2.map FrameworkError.type = some ErrorType.plugin) := by
  refine ⟨?_, ?_⟩
  · rw [RegisterPlugin, if_pos hdup]
    exact ⟨rfl, rfl⟩
  · rw [UnregisterPlugin, if_neg (by rw [habs]; exact Bool.false_ne_true)]
    exact ⟨rfl, rfl⟩

/-- C2 witness: the amended statement applied to `regDup`, the duplicate
name "rp" and the absent name "zz". -/
theorem register_unregister_failure_kinds_witness :
    containsName regDup.plugins rp0.name = true ∧
    containsName regDup.plugins "zz" = false ∧
    (RegisterPlugin regDup rp0).1 = regDup ∧
    (UnregisterPlugin regDup "zz").1 = regDup := by
  have h := register_unregister_failure_kinds regDup rp0 "zz" (by decide) (by decide)
  exact ⟨by decide, by decide, h.1.1, h.2.1⟩

/-- C3.  The configuration declares shutdown_timeout (here 1000 ms, a legal
value ≥ 1s), but the worker wait in Stop uses the literal 30 s: with workers
that would exit 20 s after Stop begins, Stop blocks 20000 ms, exceeding the
configured timeout — the configured value is never consulted.  The part of
the claim about a non-running engine is correct: Stop on `fwIdle` returns an
internal-kind error and the unchanged state. -/
theorem stop_wait_ignores_configured_timeout :
    cfg0.shutdownTimeoutMillis = 1000 ∧
    stopWorkerWaitMillis (some 20000) = 20000 ∧
    ¬(stopWorkerWaitMillis (some 20000) ≤ cfg0.shutdownTimeoutMillis) ∧
    (Stop fwIdle).2.map FrameworkError.type = some ErrorType.internal ∧
    (Stop fwIdle).1 = fwIdle := by
  exact ⟨rfl, rfl, by decide, rfl, rfl⟩

/-- C5.  The claim says no health check receives from the data channel; the
data_channel check's non-blocking select does receive: with one batch queued,
running the check leaves the queue empty — the batch is consumed by the
health check, not by the processor, and does not remain in the channel. -/
theorem data_channel_check_consumes_batch :
    (dataChannelCheckRecv [[dp0]]).1 = ([] : List (List DataPoint)) ∧
    (dataChannelCheckRecv [[dp0]]).2 = none ∧
    [[dp0]] ≠ ([] : List (List DataPoint)) := by
  exact ⟨rfl, rfl, by decide⟩

/-- C8.  GET /health answers 200 with body OK exactly when the running flag
is set and the shutdown flag is clear, and 503 Service Unavailable
otherwise; GET /ready answers 200 with body Ready exactly when additionally
the registry holds at least one plugin, and 503 Not Ready otherwise. -/
theorem health_ready_endpoint_responses (f : Framework) :
    (healthHandler f = ⟨200, "OK"⟩ ↔ (f.running = true ∧ f.shutdown = false)) ∧
    (healthHandler f = ⟨200, "OK"⟩ ∨
      healthHandler f = ⟨503, "Service Unavailable"⟩) ∧
    (readyHandler f = ⟨200, "Ready"⟩ ↔
      (f.running = true ∧ f.shutdown = false ∧ 0 < GetPluginCount f.registry)) ∧
    (readyHandler f = ⟨200, "Ready"⟩ ∨ readyHandler f = ⟨503, "Not Ready"⟩) := by
  obtain ⟨reg, cfg, run, sd⟩ := f
  by_cases hc : 0 < GetPluginCount reg <;>
    cases run <;> cases sd <;>
      simp [healthHandler, readyHandler, hc]

/-- C8 witness: the characterization applied at the running framework
`fwRun`, whose registry is non-empty. -/
theorem health_ready_endpoint_responses_witness :
    healthHandler fwRun = ⟨200, "OK"⟩ ∧ readyHandler fwRun = ⟨200, "Ready"⟩ := by
  have h := health_ready_endpoint_responses fwRun
  exact ⟨h.1.mpr ⟨rfl, rfl⟩, h.2.2.1.mpr ⟨rfl, rfl, by decide⟩⟩

/-- C10.  A successful Stop sets the shutdown flag and no later operation
clears it: Start only sets running, so after Stop-then-Start the engine has
running true yet shutdown still true, /health and /ready answer 503 while
GetStatus reports running as true; moreover Start and Stop both preserve a
set shutdown flag. -/
theorem shutdown_flag_sticky (f : Framework) (hrun : f.running = true) :
    ((Stop f).1).shutdown = true ∧
    (Start (Stop f).1).2 = none ∧
    ((Start (Stop f).1).1).running = true ∧
    ((Start (Stop f).1).1).shutdown = true ∧
    healthHandler ((Start (Stop f).1).1) = ⟨503, "Service Unavailable"⟩ ∧
    readyHandler ((Start (Stop f).1).1) = ⟨503, "Not Ready"⟩ ∧
    (GetStatus ((Start (Stop f).1).1)).running = true ∧
    (∀ g : Framework, g.shutdown = true →
      ((Start g).1).shutdown = true ∧ ((Stop g).1).shutdown = true) := by
  refine ⟨?_, ?_, ?_, ?_, ?_, ?_, ?_, ?_⟩
  case refine_8 =>
    intro g hg
    refine ⟨?_, ?_⟩ <;> simp only [Start, Stop] <;> split <;> simp [hg]
  all_goals simp [Stop, Start, hrun, healthHandler, readyHandler, GetStatus]

/-- C10 witness: Stop-then-Start at `fwRun` leaves both endpoints at 503
while the status snapshot reports running. -/
theorem shutdown_flag_sticky_witness :
    healthHandler ((Start (Stop fwRun).1).1) = ⟨503, "Service Unavailable"⟩ ∧
    readyHandler ((Start (Stop fwRun).1).1) = ⟨503, "Not Ready"⟩ ∧
    (GetStatus ((Start (Stop fwRun).1).1)).running = true := by
  have h := shutdown_flag_sticky fwRun rfl
  exact ⟨h.2.2.2.2.1, h.2.2.2.2.2.1, h.2.2.2.2.2.2.1⟩

/-- Absent names give no find? hit: connects the registration test used by
the map-membership lookups to GetPlugin's search. -/
lemma find_name_eq_none {ps : List Plugin} {n : String}
    (h : containsName ps n = false) :
    ps.find? (fun q => decide (q.name = n)) = none := by
  rw [List.find?_eq_none]
  intro p hp
  simp only [containsName, List.any_eq_false, decide_eq_true_eq] at h
  simpa using h p hp

/-- C7.  QueryDefaultAgent fails with a configuration-kind error when no
default agent is configured; QueryAgent fails with a plugin-kind error when
the name is unregistered, and with a plugin-kind error when the registered
plugin does not implement the agent interface; otherwise it returns exactly
the response or the error produced by the agent's ProcessQuery. -/
theorem query_agent_error_kinds (f : Framework) (nm q : String) :
    (f.config.defaultAgent = "" →
      QueryDefaultAgent f q = Except.error (QueryError.frameworkErr
        (NewConfigurationError "framework" "query" "no default agent configured"))) ∧
    (containsName f.registry.plugins nm = false →
      QueryAgent f nm q = Except.error (QueryError.frameworkErr
        (NewPluginError "framework" "query" ("agent " ++ nm ++ " not found")))) ∧
    (∀ p, GetPlugin f.registry nm = Except.ok p → p.agentImpl = none →
      QueryAgent f nm q = Except.error (QueryError.frameworkErr
        (NewPluginError "framework" "query" ("plugin " ++ nm ++ " is not an agent")))) ∧
    (∀ p a, GetPlugin f.registry nm = Except.ok p → p.agentImpl = some a →
      ((∀ resp, a.processQuery q = Except.ok resp →
          QueryAgent f nm q = Except.ok resp) ∧
       (∀ s, a.processQuery q = Except.error s →
          QueryAgent f nm q = Except.error (QueryError.agentErr s)))) := by
  refine ⟨?_, ?_, ?_, ?_⟩
  · intro hd
    rw [QueryDefaultAgent, if_pos hd]
  · intro habs
    rw [QueryAgent, GetPlugin, find_name_eq_none habs]
  · intro p hget himpl
    simp only [QueryAgent, hget, himpl]
  · intro p a hget himpl
    refine ⟨?_, ?_⟩
    · intro resp hresp
      simp only [QueryAgent, hget, himpl, hresp]
    · intro s hs
      simp only [QueryAgent, hget, himpl, hs]

/-- C7 witness: at `fwRun` (no default agent configured) the default query
fails configuration-kind; querying the unregistered name "missing" fails
plugin-kind; querying "np", a registered non-agent, fails plugin-kind; and
querying the agent "ag" returns the agent's own response. -/
theorem query_agent_error_kinds_witness :
    QueryDefaultAgent fwRun "x" = Except.error (QueryError.frameworkErr
      (NewConfigurationError "framework" "query" "no default agent configured")) ∧
    QueryAgent fwRun "missing" "x" = Except.error (QueryError.frameworkErr
      (NewPluginError "framework" "query" "agent missing not found")) ∧
    QueryAgent fwRun "np" "x" = Except.error (QueryError.frameworkErr
      (NewPluginError "framework" "query" "plugin np is not an agent")) ∧
    QueryAgent fwRun "ag" "hi" = Except.ok ⟨"hi", "ok", 9/10⟩ := by
  refine ⟨?_, ?_, ?_, ?_⟩
  · exact (query_agent_error_kinds fwRun "missing" "x").1 rfl
  · exact (query_agent_error_kinds fwRun "missing" "x").2.1 (by decide)
  · exact (query_agent_error_kinds fwRun "np" "x").2.2.1 npl rfl rfl
  · exact ((query_agent_error_kinds fwRun "ag" "hi").2.2.2 ag0
      ⟨fun q => Except.ok ⟨q, "ok", 9/10⟩⟩ rfl rfl).1 ⟨"hi", "ok", 9/10⟩ rfl

/-- Every per-check result has status healthy or unhealthy: the per-check
runner never produces a degraded status itself. -/
lemma runHealthCheck_status_cases (cb : CheckBehavior) :
    (runHealthCheck cb).status = "healthy" ∨ (runHealthCheck cb).status = "unhealthy" := by
  rcases cb with err | _
  · rcases err with _ | e <;> simp [runHealthCheck]
  · simp [runHealthCheck]

/-- Overall-status fold of CheckHealth, closed form: the fold over the
mapped results is the unhealthy pair when some check's result is unhealthy,
and the starting accumulator otherwise. -/
lemma foldl_updateOverall_eq (cs : List (String × CheckBehavior))
    (acc : String × String) :
    ((cs.map (fun nc => (nc.1, runHealthCheck nc.2))).foldl
        (fun acc nr => updateOverall acc nr.2) acc) =
      if ∃ nc ∈ cs, (runHealthCheck nc.2).status = "unhealthy" then
        ("unhealthy", "One or more health checks failed")
      else acc := by
  induction cs generalizing acc with
  | nil => simp
  | cons c cs ih =>
    rcases runHealthCheck_status_cases c.2 with hh | hu
    · have hupd : updateOverall acc (runHealthCheck c.2) = acc := by
        rw [updateOverall, if_neg (by rw [hh]; decide),
          if_neg (fun hcon => by rw [hh] at hcon; exact absurd hcon.1 (by decide))]
      simp only [List.map_cons, List.foldl_cons, hupd, ih]
      have hnu : ¬(runHealthCheck c.2).status = "unhealthy" := by
        rw [hh]; decide
      have hiff : (∃ nc ∈ c :: cs, (runHealthCheck nc.2).status = "unhealthy") ↔
          (∃ nc ∈ cs, (runHealthCheck nc.2).status = "unhealthy") := by
        constructor
        · rintro ⟨x, hx, hxs⟩
          rcases List.mem_cons.mp hx with rfl | hx
          · exact absurd hxs hnu
          · exact ⟨x, hx, hxs⟩
        · rintro ⟨x, hx, hxs⟩
          exact ⟨x, List.mem_cons_of_mem _ hx, hxs⟩
      simp only [hiff]
    · have hupd : updateOverall acc (runHealthCheck c.2) =
          ("unhealthy", "One or more health checks failed") := by
        rw [updateOverall, if_pos hu]
      simp only [List.map_cons, List.foldl_cons, hupd, ih]
      have hex : ∃ nc ∈ c :: cs, (runHealthCheck nc.2).status = "unhealthy" :=
        ⟨c, by simp, hu⟩
      rw [if_pos hex]
      split <;> rfl

/-- C9.  A check that does not return within the per-check deadline yields
an unhealthy result with error reason "timeout"; CheckHealth records one
result per registered check (a slow check never blocks the others); and the
overall status is unhealthy when some check's result is unhealthy, degraded
when some result is degraded and none unhealthy, healthy otherwise. -/
theorem check_health_aggregation (checks : List (String × CheckBehavior)) :
    runHealthCheck CheckBehavior.timesOut =
      ⟨"unhealthy", "Health check timed out", "timeout"⟩ ∧
    (CheckHealth checks).checks =
      checks.map (fun nc => (nc.1, runHealthCheck nc.2)) ∧
    (CheckHealth checks).status =
      (if ∃ nc ∈ checks, (runHealthCheck nc.2).status = "unhealthy" then "unhealthy"
       else if ∃ nc ∈ checks, (runHealthCheck nc.2).status = "degraded" then "degraded"
       else "healthy") := by
  refine ⟨rfl, rfl, ?_⟩
  show ((checks.map (fun nc => (nc.1, runHealthCheck nc.2))).foldl
      (fun acc nr => updateOverall acc nr.2)
      ("healthy", "All health checks passed")).1 = _
  rw [foldl_updateOverall_eq]
  by_cases hu : ∃ nc ∈ checks, (runHealthCheck nc.2).status = "unhealthy"
  · rw [if_pos hu, if_pos hu]
  · rw [if_neg hu, if_neg hu]
    have hd : ¬∃ nc ∈ checks, (runHealthCheck nc.2).status = "degraded" := by
      rintro ⟨nc, hmem, hdeg⟩
      rcases runHealthCheck_status_cases nc.2 with hh | huu
      · rw [hh] at hdeg; exact absurd hdeg (by decide)
      · exact hu ⟨nc, hmem, huu⟩
    rw [if_neg hd]

/-- C9 witness: with one passing check and one timing-out check, the
timing-out check is recorded as unhealthy with reason "timeout" and the
overall status is unhealthy. -/
theorem check_health_aggregation_witness :
    (CheckHealth [("a", CheckBehavior.returns none), ("t", CheckBehavior.timesOut)]).checks =
      [("a", ⟨"healthy", "Health check passed", ""⟩),
       ("t", ⟨"unhealthy", "Health check timed out", "timeout"⟩)] ∧
    (CheckHealth [("a", CheckBehavior.returns none), ("t", CheckBehavior.timesOut)]).status =
      "unhealthy" := by
  have h := check_health_aggregation
    [("a", CheckBehavior.returns none), ("t", CheckBehavior.timesOut)]
  exact ⟨h.2.1.trans (by decide), h.2.2.trans (by decide)⟩

/-- Unfolding lemma: a responder whose dynamic type lacks the responder
interface contributes nothing to the pass. -/
lemma respondersPass_cons_none (p : Plugin) (rest : List Plugin) (a : Analysis)
    (h : p.responderImpl = none) :
    respondersPass (p :: rest) a = respondersPass rest a := by
  rw [respondersPass, h]

/-- Unfolding lemma: a responder that declines contributes only the
CanHandle probe. -/
lemma respondersPass_cons_decline (p : Plugin) (rest : List Plugin)
    (a : Analysis) (impl : ResponderImpl) (h : p.responderImpl = some impl)
    (hch : impl.canHandle a = false) :
    respondersPass (p :: rest) a =
      PipelineEvent.canHandleCall p.name false :: respondersPass rest a := by
  rw [respondersPass, h]
  simp [hch]

/-- Unfolding lemma: a responder that accepts contributes the probe and the
Respond call, then the pass continues. -/
lemma respondersPass_cons_accept (p : Plugin) (rest : List Plugin)
    (a : Analysis) (impl : ResponderImpl) (h : p.responderImpl = some impl)
    (hch : impl.canHandle a = true) :
    respondersPass (p :: rest) a =
      PipelineEvent.canHandleCall p.name true
        :: PipelineEvent.respondCall p.name (impl.respond a).isSome
        :: respondersPass rest a := by
  rw [respondersPass, h]
  simp [hch]

/-- C6.  In the responder pass over an analysis, a Respond call for a name
appears in the trace exactly when some responder in the list bears that
name, implements the responder interface, and answered true to CanHandle;
and whatever the head responder did — decline, respond, or respond with an
error — the trace continues with the full pass over the remaining
responders (a responder error aborts nothing). -/
theorem respond_iff_canHandle :
    (∀ (rs : List Plugin) (a : Analysis) (n : String),
      (∃ e, PipelineEvent.respondCall n e ∈ respondersPass rs a) ↔
      (∃ p ∈ rs, p.name = n ∧
        ∃ impl, p.responderImpl = some impl ∧ impl.canHandle a = true)) ∧
    (∀ (p : Plugin) (rest : List Plugin) (a : Analysis),
      ∃ pre, respondersPass (p :: rest) a = pre ++ respondersPass rest a) := by
  constructor
  · intro rs a n
    induction rs with
    | nil => simp [respondersPass]
    | cons p rest ih =>
      rcases himpl : p.responderImpl with _ | impl
      · rw [respondersPass_cons_none p rest a himpl]
        rw [ih]
        constructor
        · rintro ⟨q, hq, hqs⟩
          exact ⟨q, List.mem_cons_of_mem _ hq, hqs⟩
        · rintro ⟨q, hq, hname, qimpl, hqimpl, hch⟩
          rcases List.mem_cons.mp hq with rfl | hq
          · rw [himpl] at hqimpl; exact absurd hqimpl (by simp)
          · exact ⟨q, hq, hname, qimpl, hqimpl, hch⟩
      · rcases hch : impl.canHandle a with _ | _
        · rw [respondersPass_cons_decline p rest a impl himpl hch]
          constructor
          · rintro ⟨e, he⟩
            rcases List.mem_cons.mp he with hhead | htail
            · exact absurd hhead (by simp)
            · rcases ih.mp ⟨e, htail⟩ with ⟨q, hq, hqs⟩
              exact ⟨q, List.mem_cons_of_mem _ hq, hqs⟩
          · rintro ⟨q, hq, hname, qimpl, hqimpl, hqch⟩
            rcases List.mem_cons.mp hq with rfl | hq
            · rw [himpl] at hqimpl
              injection hqimpl with hq2
              rw [hq2] at hch
              rw [hch] at hqch
              exact absurd hqch (by simp)
            · rcases ih.mpr ⟨q, hq, hname, qimpl, hqimpl, hqch⟩ with ⟨e, he⟩
              exact ⟨e, List.mem_cons_of_mem _ he⟩
        · rw [respondersPass_cons_accept p rest a impl himpl hch]
          constructor
          · rintro ⟨e, he⟩
            rcases List.mem_cons.mp he with hhead | he2
            · exact absurd hhead (by simp)
            · rcases List.mem_cons.mp he2 with hhead2 | htail
              · injection hhead2 with hn he3
                exact ⟨p, List.mem_cons_self _ _, hn.symm, impl, himpl, hch⟩
              · rcases ih.mp ⟨e, htail⟩ with ⟨q, hq, hqs⟩
                exact ⟨q, List.mem_cons_of_mem _ hq, hqs⟩
          · rintro ⟨q, hq, hname, qimpl, hqimpl, hqch⟩
            rcases List.mem_cons.mp hq with rfl | hq
            · exact ⟨(impl.respond a).isSome, by rw [hname]; simp⟩
            · rcases ih.mpr ⟨q, hq, hname, qimpl, hqimpl, hqch⟩ with ⟨e, he⟩
              exact ⟨e, List.mem_cons_of_mem _ (List.mem_cons_of_mem _ he)⟩
  · intro p rest a
    rcases himpl : p.responderImpl with _ | impl
    · exact ⟨[], by rw [respondersPass_cons_none p rest a himpl]; rfl⟩
    · rcases hch : impl.canHandle a with _ | _
      · exact ⟨[PipelineEvent.canHandleCall p.name false], by
          rw [respondersPass_cons_decline p rest a impl himpl hch]; rfl⟩
      · exact ⟨[PipelineEvent.canHandleCall p.name true,
          PipelineEvent.respondCall p.name (impl.respond a).isSome], by
          rw [respondersPass_cons_accept p rest a impl himpl hch]; rfl⟩

/-- C6 witness: over the responders `rp0` (handles everything, Respond
errors) and `rp1` (declines everything), the trace holds a Respond call for
"rp", and the pass starting at `rp0` extends the pass over the rest even
though rp0's Respond errored. -/
theorem respond_iff_canHandle_witness :
    (∃ e, PipelineEvent.respondCall "rp" e ∈ respondersPass [rp0, rp1] analysis0) ∧
    (∃ pre, respondersPass (rp0 :: [rp1]) analysis0 =
      pre ++ respondersPass [rp1] analysis0) := by
  constructor
  · exact (respond_iff_canHandle.1 [rp0, rp1] analysis0 "rp").mpr
      ⟨rp0, by simp, rfl, ⟨fun _ => true, fun _ => some "responder failed"⟩, rfl, rfl⟩
  · exact respond_iff_canHandle.2 rp0 [rp1] analysis0

/-- Status override on one plugin: everything but the lifecycle status is
kept. -/
def setPluginStatus (g : Plugin → PluginStatus) (p : Plugin) : Plugin :=
  { p with status := g p }

/-- Registry with every plugin's lifecycle status overridden by `g`. -/
def mapStatuses (reg : DefaultPluginRegistry) (g : Plugin → PluginStatus) :
    DefaultPluginRegistry :=
  ⟨reg.plugins.map (setPluginStatus g)⟩

/-- Unfolding lemma: agent pass on a plugin without the agent interface. -/
lemma setContextPass_cons_none (p : Plugin) (rest : List Plugin)
    (h : p.agentImpl = none) :
    setContextPass (p :: rest) = setContextPass rest := by
  rw [setContextPass, h]

/-- Unfolding lemma: agent pass on a plugin with the agent interface. -/
lemma setContextPass_cons_some (p : Plugin) (rest : List Plugin)
    (a : AgentImpl) (h : p.agentImpl = some a) :
    setContextPass (p :: rest) =
      PipelineEvent.setContextCall p.name :: setContextPass rest := by
  rw [setContextPass, h]

/-- Unfolding lemma: analyzer pass on a plugin without the analyzer
interface. -/
lemma analyzersPass_cons_none (reg : DefaultPluginRegistry) (p : Plugin)
    (rest : List Plugin) (data : List DataPoint) (h : p.analyzerImpl = none) :
    analyzersPass reg (p :: rest) data = analyzersPass reg rest data := by
  rw [analyzersPass, h]

/-- Unfolding lemma: analyzer pass when CanAnalyze declines. -/
lemma analyzersPass_cons_decline (reg : DefaultPluginRegistry) (p : Plugin)
    (rest : List Plugin) (data : List DataPoint) (az : AnalyzerImpl)
    (h : p.analyzerImpl = some az) (hca : az.canAnalyze data = false) :
    analyzersPass reg (p :: rest) data =
      PipelineEvent.canAnalyzeCall p.name false :: analyzersPass reg rest data := by
  rw [analyzersPass, h]
  simp [hca]

/-- Unfolding lemma: analyzer pass when Analyze errors. -/
lemma analyzersPass_cons_err (reg : DefaultPluginRegistry) (p : Plugin)
    (rest : List Plugin) (data : List DataPoint) (az : AnalyzerImpl) (s : String)
    (h : p.analyzerImpl = some az) (hca : az.canAnalyze data = true)
    (he : az.analyze data = Except.error s) :
    analyzersPass reg (p :: rest) data =
      PipelineEvent.canAnalyzeCall p.name true
        :: PipelineEvent.analyzeCall p.name true
        :: analyzersPass reg rest data := by
  rw [analyzersPass, h]
  simp [hca, he]

/-- Unfolding lemma: analyzer pass when Analyze reports nothing. -/
lemma analyzersPass_cons_nil (reg : DefaultPluginRegistry) (p : Plugin)
    (rest : List Plugin) (data : List DataPoint) (az : AnalyzerImpl)
    (h : p.analyzerImpl = some az) (hca : az.canAnalyze data = true)
    (he : az.analyze data = Except.ok none) :
    analyzersPass reg (p :: rest) data =
      PipelineEvent.canAnalyzeCall p.name true
        :: PipelineEvent.analyzeCall p.name false
        :: analyzersPass reg rest data := by
  rw [analyzersPass, h]
  simp [hca, he]

/-- Unfolding lemma: analyzer pass when Analyze produces an analysis. -/
lemma analyzersPass_cons_some (reg : DefaultPluginRegistry) (p : Plugin)
    (rest : List Plugin) (data : List DataPoint) (az : AnalyzerImpl)
    (analysis : Analysis) (h : p.analyzerImpl = some az)
    (hca : az.canAnalyze data = true)
    (he : az.analyze data = Except.ok (some analysis)) :
    analyzersPass reg (p :: rest) data =
      PipelineEvent.canAnalyzeCall p.name true
        :: PipelineEvent.analyzeCall p.name false
        :: (respondersPass (ListPluginsByType reg PluginType.responder) analysis
            ++ analyzersPass reg rest data) := by
  rw [analyzersPass, h]
  simp [hca, he]

/-- Filtering by Type commutes with the status override, which preserves the
type tag. -/
lemma filter_type_map_setStatus (ps : List Plugin) (g : Plugin → PluginStatus)
    (t : PluginType) :
    (ps.map (setPluginStatus g)).filter (fun q => decide (q.ptype = t)) =
      (ps.filter (fun q => decide (q.ptype = t))).map (setPluginStatus g) := by
  induction ps with
  | nil => rfl
  | cons p ps ih =>
    by_cases h : p.ptype = t
    · simp only [List.map_cons, List.filter_cons]
      have : (setPluginStatus g p).ptype = p.ptype := rfl
      rw [this, h]
      simp [ih]
    · simp only [List.map_cons, List.filter_cons]
      have : (setPluginStatus g p).ptype = p.ptype := rfl
      rw [this]
      simp [h, ih]

/-- ListPluginsByType after the status override is the override of
ListPluginsByType. -/
lemma listByType_mapStatuses (reg : DefaultPluginRegistry)
    (g : Plugin → PluginStatus) (t : PluginType) :
    ListPluginsByType (mapStatuses reg g) t =
      (ListPluginsByType reg t).map (setPluginStatus g) :=
  filter_type_map_setStatus reg.plugins g t

/-- Agent pass is blind to the lifecycle status. -/
lemma setContextPass_map_setStatus (l : List Plugin) (g : Plugin → PluginStatus) :
    setContextPass (l.map (setPluginStatus g)) = setContextPass l := by
  induction l with
  | nil => rfl
  | cons p l ih =>
    have hag : (setPluginStatus g p).agentImpl = p.agentImpl := rfl
    rcases h : p.agentImpl with _ | a
    · rw [List.map_cons, setContextPass_cons_none _ _ (hag.trans h),
        setContextPass_cons_none _ _ h, ih]
    · rw [List.map_cons, setContextPass_cons_some _ _ a (hag.trans h),
        setContextPass_cons_some _ _ a h, ih]
      rfl

/-- Responder pass is blind to the lifecycle status. -/
lemma respondersPass_map_setStatus (l : List Plugin) (g : Plugin → PluginStatus)
    (a : Analysis) :
    respondersPass (l.map (setPluginStatus g)) a = respondersPass l a := by
  induction l with
  | nil => rfl
  | cons p l ih =>
    have hri : (setPluginStatus g p).responderImpl = p.responderImpl := rfl
    rcases h : p.responderImpl with _ | impl
    · rw [List.map_cons, respondersPass_cons_none _ _ _ (hri.trans h),
        respondersPass_cons_none _ _ _ h, ih]
    · rcases hch : impl.canHandle a with _ | _
      · rw [List.map_cons, respondersPass_cons_decline _ _ _ impl (hri.trans h) hch,
          respondersPass_cons_decline _ _ _ impl h hch, ih]
        rfl
      · rw [List.map_cons, respondersPass_cons_accept _ _ _ impl (hri.trans h) hch,
          respondersPass_cons_accept _ _ _ impl h hch, ih]
        rfl

/-- Analyzer pass is blind to the lifecycle status. -/
lemma analyzersPass_map_setStatus (reg : DefaultPluginRegistry)
    (g : Plugin → PluginStatus) (l : List Plugin) (data : List DataPoint) :
    analyzersPass (mapStatuses reg g) (l.map (setPluginStatus g)) data =
      analyzersPass reg l data := by
  induction l with
  | nil => rfl
  | cons p l ih =>
    have hai : (setPluginStatus g p).analyzerImpl = p.analyzerImpl := rfl
    rcases h : p.analyzerImpl with _ | az
    · rw [List.map_cons, analyzersPass_cons_none _ _ _ _ (hai.trans h),
        analyzersPass_cons_none _ _ _ _ h, ih]
    · rcases hca : az.canAnalyze data with _ | _
      · rw [List.map_cons, analyzersPass_cons_decline _ _ _ _ az (hai.trans h) hca,
          analyzersPass_cons_decline _ _ _ _ az h hca, ih]
        rfl
      · rcases hres : az.analyze data with s | oa
        · rw [List.map_cons, analyzersPass_cons_err _ _ _ _ az s (hai.trans h) hca hres,
            analyzersPass_cons_err _ _ _ _ az s h hca hres, ih]
          rfl
        · rcases oa with _ | analysis
          · rw [List.map_cons, analyzersPass_cons_nil _ _ _ _ az (hai.trans h) hca hres,
              analyzersPass_cons_nil _ _ _ _ az h hca hres, ih]
            rfl
          · rw [List.map_cons,
              analyzersPass_cons_some _ _ _ _ az analysis (hai.trans h) hca hres,
              analyzersPass_cons_some _ _ _ _ az analysis h hca hres,
              listByType_mapStatuses, respondersPass_map_setStatus, ih]
            rfl

/-- Every listed plugin with the agent interface gets a SetContext call. -/
lemma mem_setContextPass (l : List Plugin) (p : Plugin) (hp : p ∈ l)
    (ha : p.agentImpl.isSome = true) :
    PipelineEvent.setContextCall p.name ∈ setContextPass l := by
  induction l with
  | nil => cases hp
  | cons q l ih =>
    rcases hq : q.agentImpl with _ | a
    · rw [setContextPass_cons_none _ _ hq]
      rcases List.mem_cons.mp hp with rfl | hp2
      · rw [hq] at ha
        exact absurd ha (by simp)
      · exact ih hp2
    · rw [setContextPass_cons_some _ _ a hq]
      rcases List.mem_cons.mp hp with rfl | hp2
      · exact List.mem_cons_self _ _
      · exact List.mem_cons_of_mem _ (ih hp2)

/-- C1 (amended).  The processor consults only a plugin's type tag and role
interfaces, never its lifecycle status: overriding every plugin's status
arbitrarily leaves the processData invocation trace unchanged, and every
registered agent-typed plugin with the agent interface receives SetContext
for every batch, whatever its status. -/
theorem processData_ignores_plugin_status :
    (∀ (reg : DefaultPluginRegistry) (g : Plugin → PluginStatus)
        (data : List DataPoint),
      processData (mapStatuses reg g) data = processData reg data) ∧
    (∀ (reg : DefaultPluginRegistry) (p : Plugin) (data : List DataPoint),
      p ∈ reg.plugins → p.ptype = PluginType.agent → p.agentImpl.isSome = true →
      PipelineEvent.setContextCall p.name ∈ processData reg data) := by
  constructor
  · intro reg g data
    rw [processData, processData, listByType_mapStatuses, listByType_mapStatuses,
      setContextPass_map_setStatus, analyzersPass_map_setStatus]
  · intro reg p data hp hpt ha
    have hmem : p ∈ ListPluginsByType reg PluginType.agent :=
      List.mem_filter.mpr ⟨hp, by simp [hpt]⟩
    exact List.mem_append_left _ (mem_setContextPass _ p hmem ha)

/-- C1 counterexample.  The claim says processData touches only running
plugins; in `regStopped` the only analyzer has status stopped and a failed
Start, yet processData still probes it with CanAnalyze. -/
theorem stopped_plugin_observed_by_processor :
    az0.status = PluginStatus.stopped ∧ az0.startOk = false ∧
    PipelineEvent.canAnalyzeCall "az" true ∈ processData regStopped [dp0] := by
  exact ⟨rfl, rfl, by decide⟩

/-- C1 witness: the status override at `regStopped` leaves the trace intact,
and the running agent `ag0` of `regMain` receives SetContext. -/
theorem processData_ignores_plugin_status_witness :
    processData (mapStatuses regStopped (fun _ => PluginStatus.running)) [dp0] =
      processData regStopped [dp0] ∧
    PipelineEvent.setContextCall ag0.name ∈ processData regMain [dp0] := by
  constructor
  · exact processData_ignores_plugin_status.1 regStopped _ [dp0]
  · exact processData_ignores_plugin_status.2 regMain ag0 [dp0] (by simp [regMain])
      rfl rfl

/-- Positional ordering over a concatenation: when the property P occurs
only in the first segment and Q only in the second, every P position
precedes every Q position. -/
lemma index_lt_of_append {α : Type} (l₁ l₂ : List α) (P Q : α → Prop)
    (h₂ : ∀ e ∈ l₂, ¬ P e) (h₁ : ∀ e ∈ l₁, ¬ Q e)
    (i j : Nat) (hi : i < (l₁ ++ l₂).length) (hj : j < (l₁ ++ l₂).length)
    (hP : P ((l₁ ++ l₂).get ⟨i, hi⟩)) (hQ : Q ((l₁ ++ l₂).get ⟨j, hj⟩)) :
    i < j := by
  rw [List.get_eq_getElem] at hP hQ
  have hilen : i < l₁.length := by
    by_contra hge
    push_neg at hge
    rw [List.getElem_append_right hge] at hP
    exact h₂ _ (List.getElem_mem _) hP
  have hjlen : l₁.length ≤ j := by
    by_contra hlt
    push_neg at hlt
    rw [List.getElem_append_left hlt] at hQ
    exact h₁ _ (List.getElem_mem _) hQ
  omega

/-- C4.  In the startup trace of Start, every plugin Start call precedes
every collector-worker spawn: the collector workers — the only senders on
the data channel — come into existence only after the start loop has
offered Start to every registered plugin (responders and agents included),
so no collector's batch can be offered to the pipeline before the
responders and agents have been started. -/
theorem collector_workers_spawn_after_plugin_starts (f : Framework)
    (i j : Nat) (hi : i < (StartTrace f).length) (hj : j < (StartTrace f).length)
    (hP : ∃ n ok, (StartTrace f).get ⟨i, hi⟩ = StartEvent.pluginStart n ok)
    (hQ : ∃ n, (StartTrace f).get ⟨j, hj⟩ = StartEvent.spawnCollectorWorker n) :
    i < j := by
  refine index_lt_of_append (startPluginEvents (ListPlugins f.registry))
    (spawnCollectorEvents (ListPluginsByType f.registry PluginType.collector)
      ++ [StartEvent.spawnDataProcessor, StartEvent.spawnHealthEndpoints])
    (fun e => ∃ n ok, e = StartEvent.pluginStart n ok)
    (fun e => ∃ n, e = StartEvent.spawnCollectorWorker n)
    ?_ ?_ i j hi hj hP hQ
  · intro e he
    rcases List.mem_append.mp he with h2 | h3
    · rcases List.mem_filterMap.mp h2 with ⟨p, _, hfp⟩
      rintro ⟨n, ok, rfl⟩
      by_cases hc : p.collectorImpl.isSome = true <;> simp [hc] at hfp
    · rintro ⟨n, ok, rfl⟩
      simp at h3
  · intro e he
    rcases List.mem_map.mp he with ⟨p, _, rfl⟩
    rintro ⟨n, hn⟩
    cases hn

/-- C4 witness: in `fwRun` (one responder, one collector, one agent, one
plain plugin), position 0 of the trace is a plugin start and position 4 is
the collector-worker spawn, so 0 < 4. -/
theorem collector_workers_spawn_after_plugin_starts_witness : (0 : Nat) < 4 := by
  have hi : (0 : Nat) < (StartTrace fwRun).length := by decide
  have hj : (4 : Nat) < (StartTrace fwRun).length := by decide
  have h1 : (StartTrace fwRun).get ⟨0, hi⟩ = StartEvent.pluginStart "rp" true := rfl
  have h2 : (StartTrace fwRun).get ⟨4, hj⟩ = StartEvent.spawnCollectorWorker "c" := rfl
  exact collector_workers_spawn_after_plugin_starts fwRun 0 4 hi hj
    ⟨"rp", true, h1⟩ ⟨"c", h2⟩

end OpsAgent
